import Mathlib

/-
Verification of the flopy MODFLOW package adapters (ModflowGhb in
src/flopy/modflow/mfghb.py and ModflowLak in src/flopy/modflow/mflak.py)
against their natural-language specification.

The source is Python 2.  The embedding below models:
 - a text file as a `List String` of lines with the trailing newline removed;
   `f.readline()` at end of file yields the empty string (Python semantics),
   while a blank line in the file is the one-character string containing the
   newline, so an element of the list that is the empty string stands for a
   blank line and the empty list stands for end of file;
 - Python exceptions as an error sum type `PyErr`, and fallible code as
   `Except PyErr`;
 - numeric text fields through explicit `int()` / `float()` parsers
   (`pyInt?`, `pyFloat?`); floating point values are carried as exact
   scaled decimals (`PyFloat`), which is faithful because the adapters
   never do arithmetic on them - they only parse, print, and compare
   against zero.

Code of the repository that the two source files call but that is not part
of the source tree (flopy.utils.util_list.mflist, Transient3d/Util3d, and
write_fixed_var) is modelled from the spec; each such definition carries a
doc comment starting with "Modelled from the spec:".
-/

/-! ## Python string and number primitives -/

/-- Python exception classes raised by the code under study. -/
inductive PyErr where
  | indexError
  | valueError
  | keyError
  | assertionError
  | notImplementedError
  | exception (msg : String)
  deriving DecidableEq, Repr

/-- Lowercase a string character by character (Python str.lower on ASCII). -/
def lowerStr (s : String) : String :=
  String.mk (s.toList.map Char.toLower)

/-- Uppercase a string character by character (Python str.upper on ASCII). -/
def upperStr (s : String) : String :=
  String.mk (s.toList.map Char.toUpper)

/-- Whether the second list starts with the first one. -/
def leadsWith : List Char → List Char → Bool
  | [], _ => true
  | _ :: _, [] => false
  | a :: as, b :: bs => a == b && leadsWith as bs

/-- Whether the first list occurs as a contiguous segment of the second
(Python substring containment, the `in` operator on str). -/
def containsSub (needle : List Char) : List Char → Bool
  | [] => leadsWith needle []
  | c :: t => leadsWith needle (c :: t) || containsSub needle t

/-- Accumulator pass behind pySplit: current partial token held reversed. -/
def pySplitChars : List Char → List Char → List String
  | [], cur => if cur.isEmpty then [] else [String.mk cur.reverse]
  | c :: rest, cur =>
    if c == ' ' || c == '\t' || c == '\n' || c == '\r' then
      if cur.isEmpty then pySplitChars rest []
      else String.mk cur.reverse :: pySplitChars rest []
    else pySplitChars rest (c :: cur)

/-- Python str.split() with no argument: split on runs of whitespace,
dropping empty pieces. -/
def pySplit (s : String) : List String :=
  pySplitChars s.toList []

/-- The value of a nonempty all-digit character list, otherwise none. -/
def digitsToNat (l : List Char) : Option Nat :=
  if l.isEmpty then none
  else if l.all Char.isDigit then
    some (l.foldl (fun a c => a * 10 + (c.toNat - 48)) 0)
  else none

/-- Python int(str): optional sign followed by at least one digit; anything
else (including a decimal point) raises ValueError, modelled as none. -/
def pyInt? (s : String) : Option Int :=
  match s.toList with
  | '-' :: rest => (digitsToNat rest).map (fun n => -(n : Int))
  | '+' :: rest => (digitsToNat rest).map (fun n => (n : Int))
  | l => (digitsToNat l).map (fun n => (n : Int))

/-- An all-digit (possibly empty) character list read as a natural number,
with a flag telling whether every character was a digit. -/
def digitsVal (l : List Char) : Option Nat :=
  if l.all Char.isDigit then
    some (l.foldl (fun a c => a * 10 + (c.toNat - 48)) 0)
  else none

/-- An exact scaled decimal: the value num / 10 ^ shift.  Python floats in
the adapters under study are only ever parsed from text, printed back, and
compared with zero (a comparison decided by the sign of the numerator), so
this exact representation is faithful; no arithmetic is performed on it. -/
structure PyFloat where
  num : Int
  shift : Nat
  deriving DecidableEq, Repr

instance (n : Nat) : OfNat PyFloat n := ⟨⟨Int.ofNat n, 0⟩⟩

instance : Neg PyFloat := ⟨fun d => ⟨-d.num, d.shift⟩⟩

/-- Whether the float value is strictly negative (note that a parsed -0.0
has numerator 0 and is not negative, matching Python). -/
def PyFloat.isNeg (d : PyFloat) : Bool := d.num < 0

/-- Python float(str) restricted to finite decimal/exponent literals:
optional sign, integer part and/or fractional part (at least one digit in
the mantissa), optional exponent.  Returns the exact decimal value. -/
def pyFloat? (s : String) : Option PyFloat :=
  let l := s.toList
  let (sgn, l) := match l with
    | '-' :: r => ((-1 : Int), r)
    | '+' :: r => ((1 : Int), r)
    | r => ((1 : Int), r)
  let (mant, expPart) := l.span (fun c => !(c == 'e' || c == 'E'))
  let expVal : Option Int :=
    match expPart with
    | [] => some 0
    | _ :: er =>
      match er with
      | '-' :: d => (digitsToNat d).map (fun n => -(n : Int))
      | '+' :: d => (digitsToNat d).map (fun n => (n : Int))
      | d => (digitsToNat d).map (fun n => (n : Int))
  let (ip, dotPart) := mant.span (fun c => !(c == '.'))
  let fp := match dotPart with
    | [] => []
    | _ :: r => r
  match digitsVal ip, digitsVal fp, expVal with
  | some ni, some nf, some e =>
    if ip.isEmpty && fp.isEmpty then none
    else
      let base : Int := sgn * ((ni : Int) * (10 : Int) ^ fp.length + (nf : Int))
      if 0 ≤ e then some ⟨base * (10 : Int) ^ e.toNat, fp.length⟩
      else some ⟨base, fp.length + (-e).toNat⟩
  | _, _, _ => none

/-- Whether a token is accepted by Python float(). -/
def isFloatTok (s : String) : Bool :=
  (pyFloat? s).isSome

/-- Python str of a float as the adapters print it: the decimal digits of
the numerator with the point placed shift digits from the right, and at
least one digit on each side of the point (str(11.0) is 11.0, str(0.5) is
0.5); the concrete values written by the theorems below render exactly as
CPython prints them. -/
def pyFloatStr (d : PyFloat) : String :=
  let neg := decide (d.num < 0)
  let ds := (toString d.num.natAbs).toList
  let ds := if ds.length ≤ d.shift then
      List.replicate (d.shift + 1 - ds.length) '0' ++ ds
    else ds
  let k := ds.length - d.shift
  let fpart := ds.drop k
  let fpart := if fpart.isEmpty then ['0'] else fpart
  (if neg then "-" else "") ++ String.mk (ds.take k) ++ "." ++ String.mk fpart

/-- Right-justify a token in a field of the given width, padding with
spaces on the left (the %10i style formats used by write_file). -/
def padLeftTo (w : Nat) (s : String) : String :=
  String.mk (List.replicate (w - s.length) ' ') ++ s

/-- Join tokens with single spaces. -/
def joinTokens : List String → String
  | [] => ""
  | [t] => t
  | t :: rest => t ++ " " ++ joinTokens rest

/-- Python f.readline() on the modelled stream: at end of file it returns
the empty string and leaves the stream empty. -/
def pyReadline : List String → String × List String
  | [] => ("", [])
  | l :: ls => (l, ls)

/-- The first character a Python readline result presents to an index
access: a blank line in the file still carries its newline, so only true
end of file gives an empty string.  Our stream stores lines without the
newline, so an empty stored line reports the newline character here. -/
def pyFirstChar (l : String) : Char :=
  if l.isEmpty then '\n' else l.toList.headD ' '

/-- CPython identity comparison (the `is` operator) between a freshly
allocated string - here always the result of str.lower() on a token parsed
from the file - and a string literal: the two are distinct objects, so the
comparison is False regardless of their contents.  This models the
comparison toption.lower() is the noprint literal at mfghb.py line 217. -/
def pyIsFreshLower (_s _lit : String) : Bool := false

/-! ## GHB data model

The stress-period data parsed by ModflowGhb.load is a Python dict mapping
the period index to either a numpy recarray of boundary records or the
integer read from the period count line (0 or -1).  Records are carried as
their validated source tokens; numpy only checks that each token converts
to the field dtype (int for the first three fields, float for the rest). -/

/-- One boundary record: the tokens assigned into the recarray row. -/
abbrev Rec := List String

/-- One entry of the stress-period dict built by load (and consumed by the
mflist store): either an integer sentinel stored verbatim from the count
line, or an explicit list of records. -/
inductive MfEntry where
  | sentinel (i : Int)
  | records (rs : List Rec)
  deriving DecidableEq, Repr

/-- The state of a loaded ModflowGhb package that the claims talk about. -/
structure GhbPkg where
  ipakcb : Int
  options : List String
  auxNames : List String
  spd : List (Nat × MfEntry)
  deriving DecidableEq, Repr

/-- Association-list lookup on the stress-period data. -/
def spdLookup (data : List (Nat × MfEntry)) (k : Nat) : Option MfEntry :=
  match data with
  | [] => none
  | (k2, e) :: rest => if k2 = k then some e else spdLookup rest k

/-! ### ModflowGhb.load (mfghb.py lines 188-250) -/

/-- The dataset 0 header loop: read lines while they begin with the comment
character.  Reading past end of file yields the empty string, whose index 0
access raises IndexError in Python. -/
def skipComments : List String → Except PyErr (String × List String)
  | [] => .error .indexError
  | l :: ls => if pyFirstChar l == '#' then skipComments ls else .ok (l, ls)

/-- The option-token loop over header tokens after the first two (mfghb.py
lines 212-223).  The first branch compares the lowercased token to the
noprint literal with the Python `is` operator, which is always false for a
fresh string; the second branch fires when the lowercased token contains
the aux substring, consuming the following token as an auxiliary name (an
aux token at the end of the line makes the t[it+1] access raise
IndexError). -/
def ghbParseOpts : List String → Except PyErr (List String × List String)
  | [] => .ok ([], [])
  | tok :: rest =>
    if pyIsFreshLower (lowerStr tok) "noprint" then
      match ghbParseOpts rest with
      | .error e => .error e
      | .ok (os, as) => .ok (tok :: os, as)
    else if containsSub "aux".toList (lowerStr tok).toList then
      match rest with
      | [] => .error .indexError
      | nxt :: rest2 =>
        match ghbParseOpts rest2 with
        | .error e => .error e
        | .ok (os, as) =>
          .ok ((tok ++ " " ++ nxt) :: os, (lowerStr nxt) :: as)
    else
      ghbParseOpts rest

/-- Parse one GHB boundary record line (mfghb.py lines 240-244): an
open/close token anywhere in the lowercased line raises
NotImplementedError; otherwise the line is split and its first
5 + naux tokens are assigned into the recarray row, which raises ValueError
when fewer tokens are present or a token does not convert to the field
dtype (int for the k,i,j fields, float for bhead, cond and the auxiliary
fields). -/
def parseGhbRecordLine (naux : Nat) (line : String) : Except PyErr Rec :=
  if containsSub "open/close".toList (lowerStr line).toList then
    .error .notImplementedError
  else
    let t := pySplit line
    let nf := 5 + naux
    if t.length < nf then .error .valueError
    else
      let vals := t.take nf
      let intsOk := (vals.take 3).all (fun s => (pyInt? s).isSome)
      let floatsOk := (vals.drop 3).all isFloatTok
      if intsOk && floatsOk then .ok vals else .error .valueError

/-- Read itmp record lines for one stress period (the ibnd loop at mfghb.py
lines 239-244). -/
def ghbReadRecords (naux : Nat) : List String → Nat → List Rec →
    Except PyErr (List Rec × List String)
  | stream, 0, acc => .ok (acc, stream)
  | stream, n + 1, acc =>
    let (line, rest) := pyReadline stream
    match parseGhbRecordLine naux line with
    | .error e => .error e
    | .ok r => ghbReadRecords naux rest n (acc ++ [r])

/-- The per-stress-period loop of ModflowGhb.load (mfghb.py lines 228-245):
for each of the remaining periods read the count line (end of file breaks
the loop, returning what was accumulated), parse itmp, store the integer
sentinel for itmp equal to 0 or -1, read itmp record lines for positive
itmp, and store nothing for any other negative value. -/
def ghbPeriodLoop (naux : Nat) :
    Nat → Nat → List String → List (Nat × MfEntry) →
    Except PyErr (List (Nat × MfEntry))
  | 0, _, _, acc => .ok acc
  | _ + 1, _, [], acc => .ok acc
  | rem + 1, iper, line :: rest, acc =>
    match pySplit line with
    | [] => .error .indexError
    | tok :: _ =>
      match pyInt? tok with
      | none => .error .valueError
      | some itmp =>
        if itmp == 0 || itmp == -1 then
          ghbPeriodLoop naux rem (iper + 1) rest (acc ++ [(iper, .sentinel itmp)])
        else if 0 < itmp then
          match ghbReadRecords naux rest itmp.toNat [] with
          | .error e => .error e
          | .ok (recs, rest2) =>
            ghbPeriodLoop naux rem (iper + 1) rest2 (acc ++ [(iper, .records recs)])
        else
          ghbPeriodLoop naux rem (iper + 1) rest acc

/-- ModflowGhb.load (mfghb.py lines 188-250; the code after the first
return statement, lines 258-305, is dead and not modelled).  The header
comment lines are skipped; a parameter line asserts its second token is
zero; the header control line silently defaults ipakcb to 0 when its
second token is absent or non-numeric and never reads its first token;
option tokens after the second field are scanned; then the per-period loop
runs for nper periods. -/
def ghbLoad (lines : List String) (nper : Nat) : Except PyErr GhbPkg :=
  match skipComments lines with
  | .error e => .error e
  | .ok (line0, rest0) =>
    let step2 : Except PyErr (String × List String) :=
      if containsSub "parameter".toList (lowerStr line0).toList then
        match (pySplit line0).get? 1 with
        | none => .error .indexError
        | some s =>
          match pyInt? s with
          | none => .error .valueError
          | some v =>
            if v = 0 then .ok (pyReadline rest0) else .error .assertionError
      else .ok (line0, rest0)
    match step2 with
    | .error e => .error e
    | .ok (line, rest) =>
      let t := pySplit line
      let ipakcb : Int :=
        match t.get? 1 with
        | none => 0
        | some s =>
          match pyInt? s with
          | none => 0
          | some v => if v ≠ 0 then 53 else 0
      let optRes : Except PyErr (List String × List String) :=
        if 2 < t.length then ghbParseOpts (t.drop 2) else .ok ([], [])
      match optRes with
      | .error e => .error e
      | .ok (options, auxNames) =>
        match ghbPeriodLoop auxNames.length nper 0 rest [] with
        | .error e => .error e
        | .ok spd =>
          .ok { ipakcb := ipakcb, options := options,
                auxNames := auxNames, spd := spd }

/-! ## The mflist stress-period record store

ModflowGhb delegates its store to flopy.utils.util_list.mflist, which is
code of this repository not present under src/; it is modelled here from
the spec (sections 4.2 and 4.3). -/

/-- Generic association-list lookup keyed by period index. -/
def alookup {α : Type} (d : List (Nat × α)) (k : Nat) : Option α :=
  match d with
  | [] => none
  | (k2, v) :: rest => if k2 = k then some v else alookup rest k

/-- The defined entry with the greatest period index at or before p. -/
def bestAt (data : List (Nat × MfEntry)) (p : Nat) : Option (Nat × MfEntry) :=
  data.foldl (fun best kv =>
    if kv.1 ≤ p then
      match best with
      | none => some kv
      | some b => if b.1 ≤ kv.1 then some kv else best
    else best) none

/-- Modelled from the spec: the carry-forward resolution behind
mflist - effective(period) scans keys at or before the period in
descending order and returns the record set of the nearest Explicit entry,
the empty set at a Clear marker (the integer 0 entry), and the empty set
when no entry exists at or before the period; an integer -1 entry defers
to the periods before it. -/
def mflEffectiveGo (data : List (Nat × MfEntry)) : Nat → Nat → List Rec
  | 0, _ => []
  | fuel + 1, q =>
    match bestAt data q with
    | none => []
    | some (_, .records r) => r
    | some (k, .sentinel i) =>
      if i = 0 then []
      else if k = 0 then []
      else mflEffectiveGo data fuel (k - 1)

/-- Modelled from the spec: mflist effective record set for a period. -/
def mflEffective (data : List (Nat × MfEntry)) (p : Nat) : List Rec :=
  mflEffectiveGo data (p + 1) p

/-- The record set that addRecord mutates for a period: the Explicit entry
if one exists, otherwise a copy of the resolved effective set. -/
def ghbCurrentSet (data : List (Nat × MfEntry)) (kper : Nat) : List Rec :=
  match spdLookup data kper with
  | some (.records r) => r
  | _ => mflEffective data kper

/-- Replace or insert the entry for a period. -/
def setEntry (data : List (Nat × MfEntry)) (k : Nat) (e : MfEntry) :
    List (Nat × MfEntry) :=
  match data with
  | [] => [(k, e)]
  | (k2, e2) :: rest =>
    if k2 = k then (k, e) :: rest else (k2, e2) :: setEntry rest k e

/-- Modelled from the spec: mflist.add_record(period, index, values) - if
the period has no Explicit entry yet, one is created by copying the
resolved effective set; slot index is then set, growing the set when index
equals its length; an index beyond the length raises IndexError. -/
def mflAddRecord (data : List (Nat × MfEntry)) (kper index : Nat) (values : Rec) :
    Except PyErr (List (Nat × MfEntry)) :=
  let base := ghbCurrentSet data kper
  if base.length < index then .error .indexError
  else if index = base.length then
    .ok (setEntry data kper (.records (base ++ [values])))
  else
    .ok (setEntry data kper (.records (base.set index values)))

/-- Python str() of the exceptions involved, as interpolated into the
wrapper message by ModflowGhb.add_record. -/
def pyErrStr : PyErr → String
  | .indexError => "list index out of range"
  | .valueError => "invalid literal"
  | .keyError => "key error"
  | .assertionError => "Parameters are not supported"
  | .notImplementedError => "load() method does not support open/close"
  | .exception m => m

/-- ModflowGhb.add_record (mfghb.py lines 130-134): delegate to the store
and re-raise any exception as a generic Exception carrying the wrapper
message. -/
def ghbAddRecord (data : List (Nat × MfEntry)) (kper index : Nat) (values : Rec) :
    Except PyErr (List (Nat × MfEntry)) :=
  match mflAddRecord data kper index values with
  | .ok d => .ok d
  | .error e => .error (.exception ("mfghb error adding record to list: " ++ pyErrStr e))

/-- Modelled from the spec: mflist.mxact, the maximum number of records in
any Explicit period entry. -/
def mflMxact (data : List (Nat × MfEntry)) : Nat :=
  data.foldl (fun m kv =>
    match kv.2 with
    | .records r => max m r.length
    | .sentinel _ => m) 0

/-- Modelled from the spec: mflist.write_transient - for every period in
order, write the period count line (the record-set length for an Explicit
entry followed by its free-format record lines, the stored integer for a
sentinel entry, the carry-forward token -1 for a period absent from the
store after some defined period, and 0 before any defined period). -/
def mflWriteTransient (data : List (Nat × MfEntry)) (nper : Nat) : List String :=
  ((List.range nper).map (fun kper =>
    match spdLookup data kper with
    | some (.records r) => toString r.length :: r.map joinTokens
    | some (.sentinel i) => [toString i]
    | none =>
      if data.any (fun kv => kv.1 ≤ kper) then ["-1"] else ["0"])).flatten

/-- ModflowGhb.write_file (mfghb.py lines 120-128) together with the state
of its file handle when it returns: the heading line, the ten-column
header fields with the option tokens, the transient store, and the
f_ghb.close() call as the final statement, recorded in the Bool. -/
def ghbWriteRun (pkg : GhbPkg) (nper : Nat) : List String × Bool :=
  let header := padLeftTo 10 (toString (mflMxact pkg.spd))
    ++ padLeftTo 10 (toString pkg.ipakcb)
    ++ String.join (pkg.options.map (fun o => "  " ++ o))
  let ls := "# GHB for MODFLOW, generated by Flopy." :: header ::
    mflWriteTransient pkg.spd nper
  (ls, true)

/-- ModflowGhb.load together with the state of its file handle when it
returns: the loader opens the file (mfghb.py line 190) and contains no
close call on any path, success or error, so the handle is never closed
by the time the call returns. -/
def ghbLoadRun (lines : List String) (nper : Nat) :
    Except PyErr GhbPkg × Bool :=
  (ghbLoad lines nper, false)

/-! ## LAK data model

The ModflowLak adapter state needed by the claims.  Stage values travel as
their source tokens (the loader appends the raw token t[0] to stages);
other floating-point scalars are exact rationals.  The lake-location and
leakance arrays are opaque blocks held by a spec-modelled Transient3d, so
each is represented by a numeric array identifier per explicit period. -/

/-- The constructed ModflowLak package state. -/
structure LakPkg where
  nlakes : Nat
  ipakcb : Int
  theta : PyFloat
  nssitr : Int
  sscncr : PyFloat
  surfdep : PyFloat
  options : List String
  tabdata : Bool
  iunitTab : List Int
  stages : List String
  stageRange : List (PyFloat × PyFloat)
  lakarr : List (Nat × Nat)
  bdlknc : List (Nat × Nat)
  sillData : List (Nat × List (List Int × List PyFloat))
  fluxData : List (Nat × List (List PyFloat))
  registered : List (Int × String)
  deriving DecidableEq, Repr

/-- Modelled from the spec: the text block a Util3d array entry occupies in
the package file; one control line naming an internal array. -/
def writeArrayBlock (a : Nat) : List String :=
  ["INTERNAL " ++ toString a]

/-- Modelled from the spec: Transient3d.get_kper_entry - an Explicit period
yields a positive count and its array block, a period after some defined
period carries forward with the -1 token and no lines, and a period before
any defined period yields 0 and no lines. -/
def transGetKper (d : List (Nat × Nat)) (kper : Nat) : Int × List String :=
  match alookup d kper with
  | some a => (1, writeArrayBlock a)
  | none => if d.any (fun kv => kv.1 ≤ kper) then (-1, []) else (0, [])

/-- ModflowLak.write_file (mflak.py lines 262-369), in free format (the
model free_format_input flag is taken as true throughout): heading, the
options line when options are present, dataset 1b, dataset 2 (nssitr and
sscncr only for negative theta or a steady simulation, surfdep only for
negative theta), dataset 3 per lake (stage, the stage range when the first
period is steady, the table unit when TABLEINPUT is active), then per
stress period dataset 4 with itmp from the lake-array store, itmp2 = 1
exactly when flux data has an entry for the period (0 otherwise), the
array blocks plus datasets 7/8 only when itmp is positive, and the
dataset 9 lines only when itmp2 is positive, truncated to their first 4
values except for a steady later period. -/
def lakWriteFile (p : LakPkg) (steady : List Bool) (nper : Nat) : List String :=
  let heading := "# LAK package for mf2005, generated by Flopy."
  let optLines : List String :=
    if 0 < p.options.length then
      [String.join (p.options.map (fun o => o ++ " "))]
    else []
  let ds1b := joinTokens [toString p.nlakes, toString p.ipakcb]
  let steadyAny := steady.any id
  let ds2 := joinTokens
    ([pyFloatStr p.theta]
      ++ (if p.theta.isNeg || steadyAny then
            [toString p.nssitr, pyFloatStr p.sscncr] else [])
      ++ (if p.theta.isNeg then [pyFloatStr p.surfdep] else []))
  let steady0 := steady.headD false
  let ds3 := (List.range p.nlakes).map (fun n =>
    joinTokens ([p.stages.getD n ""]
      ++ (if steady0 then
            let sr := p.stageRange.getD n (0, 0)
            [pyFloatStr sr.1, pyFloatStr sr.2]
          else [])
      ++ (if p.tabdata then [toString (p.iunitTab.getD n 0)] else [])))
  let periods := (List.range nper).map (fun kper =>
    let (itmp, arrLines) := transGetKper p.lakarr kper
    let (_ibd, bdLines) := transGetKper p.bdlknc kper
    let itmp2 : Int := if (alookup p.fluxData kper).isSome then 1 else 0
    let ds4 := joinTokens [toString itmp, toString itmp2, "1"]
      ++ "  Stress period " ++ toString (kper + 1)
    let body1 : List String :=
      if 0 < itmp then
        let ds8 := (alookup p.sillData kper).getD []
        let nslms := ds8.length
        let ds7line := toString nslms ++ "  Data set 7"
        let ds8lines := (ds8.map (fun d =>
          [joinTokens (d.1.map toString) ++ "  Data set 8a",
           joinTokens (d.2.map pyFloatStr) ++ "  Data set 8b"])).flatten
        arrLines ++ bdLines ++ (ds7line :: ds8lines)
      else []
    let body2 : List String :=
      if 0 < itmp2 then
        let ds9 := (alookup p.fluxData kper).getD []
        (List.range p.nlakes).map (fun n =>
          let row := ds9.getD n []
          let vals := if 0 < kper && steady.getD kper true then row
            else row.take 4
          joinTokens (vals.map pyFloatStr) ++ "  Data set 9a")
      else []
    ds4 :: (body1 ++ body2))
  heading :: (optLines ++ (ds1b :: ds2 :: ds3 ++ periods.flatten))

/-! ## ModflowLak constructor (mflak.py lines 67-254) -/

/-- The stages argument: a Python float or a list of stage tokens. -/
inductive StagesArg where
  | scalar (q : PyFloat)
  | list (toks : List String)
  deriving DecidableEq, Repr

/-- The stage_range argument: a Python float or a list of rows. -/
inductive SRArg where
  | scalar (q : PyFloat)
  | list (rows : List (List PyFloat))
  deriving DecidableEq, Repr

/-- The keyword arguments of ModflowLak.__init__ that the claims exercise
(model-level collaborators are reduced to the data they contribute: the
steady flags of the discretization and the next external unit number). -/
structure LakInitArgs where
  nlakes : Nat
  ipakcb : Option Int
  theta : PyFloat
  nssitr : Int
  sscncr : PyFloat
  surfdep : PyFloat
  stages : StagesArg
  stageRange : Option SRArg
  tabFiles : Option (List (Option String))
  tabUnits : Option (List Int)
  lakarr : Option (List (Nat × Nat))
  bdlknc : Option (List (Nat × Nat))
  sillData : Option (List (Nat × List (List Int × List PyFloat)))
  fluxData : Option (List (Nat × List (List PyFloat)))
  options : List String
  filenames : Option (List (Option String))
  steady : List Bool
  nextUnit : Int
  deriving Repr

/-- The tabfile non-None check loop (mflak.py lines 119-123): the first
None entry raises ValueError; otherwise the file names are collected. -/
def checkNoneLoop : List (Option String) → Except PyErr (List String)
  | [] => .ok []
  | none :: _ => .error .valueError
  | some s :: rest =>
    match checkNoneLoop rest with
    | .error e => .error e
    | .ok ns => .ok (s :: ns)

/-- The table-input-file section of the constructor (mflak.py lines
106-131): when TABLEINPUT is active, default tab_files from the filenames
list, compare its length with the lake count - the mismatch message is
assigned to a local variable and never raised (line 114-117) - then raise
ValueError at any None entry, default the unit numbers from the model
counter, and register each (unit, file) pair as an external file. -/
def lakTabSection (tabdata : Bool) (nlakes : Nat)
    (tabFiles : Option (List (Option String))) (tabUnits : Option (List Int))
    (filenames : List (Option String)) (u0 : Int) :
    Except PyErr (List (Int × String) × List Int) :=
  if tabdata then
    let tf := match tabFiles with
      | some l => l
      | none => filenames.drop 2
    let _msg :=
      if tf.length < nlakes then
        some "a tabfile must be specified for each lake"
      else none
    (checkNoneLoop tf).bind (fun names =>
      let units := match tabUnits with
        | some us => us
        | none => (List.range tf.length).map (fun i => u0 + i)
      .ok (List.zip units names, units))
  else .ok ([], [])

/-- The stages validation of the constructor (mflak.py lines 159-166): a
float argument is multiplied into np.array(self.nlakes), which is a
0-dimensional array, so the stages.shape[0] access at line 163 raises
IndexError; a list becomes a 1-dimensional array whose length must equal
the lake count, else an Exception is raised. -/
def stagesSection (stages : StagesArg) (nlakes : Nat) :
    Except PyErr (List String) :=
  match stages with
  | .scalar _ => .error .indexError
  | .list toks =>
    if toks.length ≠ nlakes then
      .error (.exception "stages shape mismatch")
    else .ok toks

/-- Whether np.array of the rows has shape (nlakes, 2): the row count
matches and every row has two entries (ragged rows give an object array
of a different shape). -/
def npShape2Ok (rows : List (List PyFloat)) (nlakes : Nat) : Bool :=
  rows.length = nlakes && rows.all (fun r => r.length = 2)

/-- The stage_range validation of the constructor (mflak.py lines
168-185): a missing argument defaults to (-10000, 10000) per lake; a float
argument raises; and when the first stress period is steady state the
shape must be (nlakes, 2), else an Exception is raised. -/
def stageRangeSection (sr : Option SRArg) (nlakes : Nat) (steady0 : Bool) :
    Except PyErr (List (PyFloat × PyFloat)) :=
  match sr with
  | none => .ok (List.replicate nlakes ((-(10000 : PyFloat)), (10000 : PyFloat)))
  | some (.scalar _) => .error (.exception "stage_range should be a list or array")
  | some (.list rows) =>
    if steady0 && !(npShape2Ok rows nlakes) then
      .error (.exception "stage_range shape mismatch")
    else .ok (rows.map (fun r => (r.getD 0 0, r.getD 1 0)))

/-- The per-lake row check of the flux_data dict branch (mflak.py lines
240-247): value[k] for each lake raises KeyError when absent, and a row
shorter than the required length raises an Exception. -/
def fluxRowsCheck (nlen : Nat) (rows : List (List PyFloat)) :
    Nat → Nat → Except PyErr Unit
  | _, 0 => .ok ()
  | k, n + 1 =>
    match rows.get? k with
    | none => .error .keyError
    | some td =>
      if td.length < nlen then .error (.exception "flux_data entry too short")
      else fluxRowsCheck nlen rows (k + 1) n

/-- The flux_data normalization loop of the constructor (mflak.py lines
216-247), dict-valued entries only: the required row length is 6 for a
steady later period (a missing steady flag defaults to steady) and 4
otherwise. -/
def fluxEntriesCheck (nlakes : Nat) (steady : List Bool) :
    List (Nat × List (List PyFloat)) → Except PyErr Unit
  | [] => .ok ()
  | (kper, rows) :: rest =>
    let sdy := steady.getD kper true
    let nlen : Nat := if sdy && 0 < kper then 6 else 4
    match fluxRowsCheck nlen rows 0 nlakes with
    | .error e => .error e
    | .ok _ => fluxEntriesCheck nlakes steady rest

/-- TABLEINPUT detection over the option tokens (mflak.py lines 84-89). -/
def lakDetectTab (opts : List String) : Bool :=
  opts.any (fun o => containsSub "TABLEINPUT".toList (upperStr o).toList)

/-- The filenames normalization of the constructor (mflak.py lines
90-96): a missing argument becomes nlen None entries, a single name keeps
the model of a one-element list, and a short list is padded with nlen - 2
None entries (the range(2, nlen) count of the source). -/
def lakNormFilenames (fns : Option (List (Option String))) (nlen : Nat) :
    List (Option String) :=
  match fns with
  | none => List.replicate nlen none
  | some l => if l.length < nlen then l ++ List.replicate (nlen - 2) none else l

/-- The lakarr/bdlknc presence check (mflak.py lines 191-193): only both
arguments missing raise. -/
def lakarrCheck (la lb : Option (List (Nat × Nat))) : Except PyErr Unit :=
  if la = none ∧ lb = none then
    .error (.exception "lakarr and bdlknc must be specified")
  else .ok ()

/-- ModflowLak.__init__ (mflak.py lines 67-254): TABLEINPUT detection over
the option tokens, filenames normalization, the table-file section, the
stages and stage_range validations, the requirement that lakarr and bdlknc
are not both None, and the flux_data row checks, in source order. -/
def lakInit (a : LakInitArgs) : Except PyErr LakPkg :=
  let tabdata := lakDetectTab a.options
  let nlen := 2 + (if tabdata then a.nlakes else 0)
  let filenames := lakNormFilenames a.filenames nlen
  let ipakcb := a.ipakcb.getD 0
  (lakTabSection tabdata a.nlakes a.tabFiles a.tabUnits filenames a.nextUnit).bind
    (fun ru =>
  (stagesSection a.stages a.nlakes).bind (fun stagesToks =>
  (stageRangeSection a.stageRange a.nlakes (a.steady.headD false)).bind (fun sr =>
  (lakarrCheck a.lakarr a.bdlknc).bind (fun _ =>
  (fluxEntriesCheck a.nlakes a.steady (a.fluxData.getD [])).bind (fun _ =>
    .ok { nlakes := a.nlakes, ipakcb := ipakcb, theta := a.theta,
          nssitr := a.nssitr, sscncr := a.sscncr,
          surfdep := a.surfdep, options := a.options,
          tabdata := tabdata, iunitTab := ru.2,
          stages := stagesToks, stageRange := sr,
          lakarr := a.lakarr.getD [], bdlknc := a.bdlknc.getD [],
          sillData := a.sillData.getD [],
          fluxData := a.fluxData.getD [],
          registered := ru.1 })))))

/-! ## ModflowLak.load (mflak.py lines 371-619)

The loader is modelled in free format (model.array_free_format true), the
mode the writer above also uses. -/

/-- Token j of a split line converted by int(): a missing token raises
IndexError, a non-numeric one ValueError. -/
def tokAtInt (t : List String) (j : Nat) : Except PyErr Int :=
  match t.get? j with
  | none => .error .indexError
  | some s =>
    match pyInt? s with
    | none => .error .valueError
    | some v => .ok v

/-- Token j of a split line converted by float(). -/
def tokAtFloat (t : List String) (j : Nat) : Except PyErr PyFloat :=
  match t.get? j with
  | none => .error .indexError
  | some s =>
    match pyFloat? s with
    | none => .error .valueError
    | some q => .ok q

/-- Tokens start, start+1, ..., start+count-1 converted by int(). -/
def intsRange (t : List String) : Nat → Nat → Except PyErr (List Int)
  | _, 0 => .ok []
  | start, c + 1 =>
    match tokAtInt t start with
    | .error e => .error e
    | .ok v =>
      match intsRange t (start + 1) c with
      | .error e => .error e
      | .ok vs => .ok (v :: vs)

/-- Tokens start, start+1, ..., start+count-1 converted by float(). -/
def floatsRange (t : List String) : Nat → Nat → Except PyErr (List PyFloat)
  | _, 0 => .ok []
  | start, c + 1 =>
    match tokAtFloat t start with
    | .error e => .error e
    | .ok v =>
      match floatsRange t (start + 1) c with
      | .error e => .error e
      | .ok vs => .ok (v :: vs)

/-- Modelled from the spec: Util3d.load consumes the lines written for one
array block by the corresponding Transient3d entry. -/
def util3dLoad (stream : List String) : Except PyErr (Nat × List String) :=
  match stream with
  | [] => .error .indexError
  | l :: rest =>
    match pySplit l with
    | [tag, idTok] =>
      if tag = "INTERNAL" then
        match pyInt? idTok with
        | some v => .ok (v.toNat, rest)
        | none => .error .valueError
      else .error .valueError
    | _ => .error .valueError

/-- Dataset 1b (mflak.py lines 435-441): nlakes = int(t[0]) aborts on a
missing or non-numeric token, while ipakcb = int(t[1]) is wrapped in a
silent try/except defaulting to 0. -/
def lakParseDs1b (line : String) : Except PyErr (Int × Int) :=
  let t := pySplit line
  match tokAtInt t 0 with
  | .error e => .error e
  | .ok nl =>
    let ipakcb : Int :=
      match t.get? 1 with
      | none => 0
      | some s => (pyInt? s).getD 0
    .ok (nl, ipakcb)

/-- Dataset 2 (mflak.py lines 444-462): theta = float(t[0]) aborts on
failure; for negative theta nssitr and sscncr are read with silent
defaulting but surfdep = float(t[3]) is unprotected and aborts. -/
def lakParseDs2 (line : String) : Except PyErr (PyFloat × Int × PyFloat × PyFloat) :=
  let t := pySplit line
  match tokAtFloat t 0 with
  | .error e => .error e
  | .ok theta =>
    let nssitr : Int :=
      if theta.isNeg then
        match t.get? 1 with
        | some s => (pyInt? s).getD 0
        | none => 0
      else 0
    let sscncr : PyFloat :=
      if theta.isNeg then
        match t.get? 2 with
        | some s => (pyFloat? s).getD 0
        | none => 0
      else 0
    if theta.isNeg then
      match tokAtFloat t 3 with
      | .error e => .error e
      | .ok surfdep => .ok (theta, nssitr, sscncr, surfdep)
    else .ok (theta, nssitr, sscncr, 0)

/-- Dataset 3 (mflak.py lines 469-488): per lake, append the raw first
token to stages; when the first period is steady state read the two stage
range floats; when TABLEINPUT is active read the table unit number. -/
def lakParseDs3 (steady : List Bool) (tabdata : Bool) :
    Nat → List String → (List String × List (PyFloat × PyFloat) × List Int) →
    Except PyErr ((List String × List (PyFloat × PyFloat) × List Int) × List String)
  | 0, stream, acc => .ok (acc, stream)
  | n + 1, stream, (stages, srs, tus) =>
    let (line, rest) := pyReadline stream
    let t := pySplit line
    match t.get? 0 with
    | none => .error .indexError
    | some s0 =>
      match steady.get? 0 with
      | none => .error .indexError
      | some sdy0 =>
        let srStep : Except PyErr (List (PyFloat × PyFloat) × Nat) :=
          if sdy0 then
            match tokAtFloat t 1 with
            | .error e => .error e
            | .ok a =>
              match tokAtFloat t 2 with
              | .error e => .error e
              | .ok b => .ok (srs ++ [(a, b)], 3)
          else .ok (srs, 1)
        match srStep with
        | .error e => .error e
        | .ok (srs2, ipos) =>
          let tuStep : Except PyErr (List Int) :=
            if tabdata then
              match tokAtInt t ipos with
              | .error e => .error e
              | .ok iu => .ok (tus ++ [iu])
            else .ok tus
          match tuStep with
          | .error e => .error e
          | .ok tus2 =>
            lakParseDs3 steady tabdata n rest (stages ++ [s0], srs2, tus2)

/-- Dataset 8 (mflak.py lines 529-552), free format: for each sublake
system read ic = int(t[0]) and ic connected lake numbers, then ic - 1 sill
elevations from the following line. -/
def lakReadDs8 :
    Nat → List String → List (List Int × List PyFloat) →
    Except PyErr (List (List Int × List PyFloat) × List String)
  | 0, stream, acc => .ok (acc, stream)
  | i + 1, stream, acc =>
    let (line, rest) := pyReadline stream
    let t := pySplit line
    match tokAtInt t 0 with
    | .error e => .error e
    | .ok ic =>
      match intsRange t 1 ic.toNat with
      | .error e => .error e
      | .ok centers =>
        let (line2, rest2) := pyReadline rest
        let t2 := pySplit line2
        match floatsRange t2 0 (ic - 1).toNat with
        | .error e => .error e
        | .ok silvt => lakReadDs8 i rest2 (acc ++ [(ic :: centers, silvt)])

/-- Dataset 9 (mflak.py lines 558-580): per lake read four flux values;
for a steady first period copy the loaded stage range, for a steady later
period read two more values from the line, and for a transient period
append two zeros. -/
def lakReadDs9 (stageRange : List (PyFloat × PyFloat)) (sdy : Bool) (iper : Nat) :
    Nat → Nat → List String → List (List PyFloat) →
    Except PyErr (List (List PyFloat) × List String)
  | 0, _, stream, acc => .ok (acc, stream)
  | n + 1, lakeIdx, stream, acc =>
    let (line, rest) := pyReadline stream
    let t := pySplit line
    match floatsRange t 0 4 with
    | .error e => .error e
    | .ok f4 =>
      let extras : Except PyErr (List PyFloat) :=
        if sdy then
          if iper = 0 then
            match stageRange.get? lakeIdx with
            | none => .error .indexError
            | some (a, b) => .ok [a, b]
          else
            match floatsRange t 4 2 with
            | .error e => .error e
            | .ok ex => .ok ex
        else .ok [0, 0]
      match extras with
      | .error e => .error e
      | .ok ex => lakReadDs9 stageRange sdy iper n (lakeIdx + 1) rest (acc ++ [f4 ++ ex])

/-- The accumulated per-period dictionaries of the LAK loader. -/
structure LakLoopAcc where
  locs : List (Nat × Nat)
  lkncs : List (Nat × Nat)
  sills : List (Nat × List (List Int × List PyFloat))
  fluxes : List (Nat × List (List PyFloat))
  deriving DecidableEq, Repr

/-- The per-stress-period loop of ModflowLak.load (mflak.py lines
494-581): read the dataset 4 control line - there is no end-of-file break
here, so reading past the end parses the empty string and aborts - then
for positive itmp the two array blocks, dataset 7 and optionally dataset
8, and for itmp1 greater than or equal to zero the nlakes dataset 9
lines. -/
def lakPeriodLoop (nlakes : Nat) (steady : List Bool)
    (stageRange : List (PyFloat × PyFloat)) :
    Nat → Nat → List String → LakLoopAcc →
    Except PyErr (LakLoopAcc × List String)
  | 0, _, stream, acc => .ok (acc, stream)
  | rem + 1, iper, stream, acc =>
    let (line, rest) := pyReadline stream
    let t := pySplit line
    match tokAtInt t 0 with
    | .error e => .error e
    | .ok itmp =>
      match tokAtInt t 1 with
      | .error e => .error e
      | .ok itmp1 =>
        match tokAtInt t 2 with
        | .error e => .error e
        | .ok _lwrt =>
          let part1 : Except PyErr (LakLoopAcc × List String) :=
            if 0 < itmp then
              match util3dLoad rest with
              | .error e => .error e
              | .ok (lakarrId, r2) =>
                match util3dLoad r2 with
                | .error e => .error e
                | .ok (bdlkncId, r3) =>
                  let (l7, r4) := pyReadline r3
                  match tokAtInt (pySplit l7) 0 with
                  | .error e => .error e
                  | .ok nslms =>
                    let acc2 := { acc with
                      locs := acc.locs ++ [(iper, lakarrId)],
                      lkncs := acc.lkncs ++ [(iper, bdlkncId)] }
                    if 0 < nslms then
                      match lakReadDs8 nslms.toNat r4 [] with
                      | .error e => .error e
                      | .ok (ds8, r5) =>
                        .ok ({ acc2 with sills := acc2.sills ++ [(iper, ds8)] }, r5)
                    else .ok (acc2, r4)
            else .ok (acc, rest)
          match part1 with
          | .error e => .error e
          | .ok (accA, streamA) =>
            let part2 : Except PyErr (LakLoopAcc × List String) :=
              if 0 ≤ itmp1 then
                match steady.get? iper with
                | none => .error .indexError
                | some sdy =>
                  match lakReadDs9 stageRange sdy iper nlakes 0 streamA [] with
                  | .error e => .error e
                  | .ok (ds9, streamB) =>
                    .ok ({ accA with fluxes := accA.fluxes ++ [(iper, ds9)] }, streamB)
              else .ok (accA, streamA)
            match part2 with
            | .error e => .error e
            | .ok (accB, streamC) =>
              lakPeriodLoop nlakes steady stageRange rem (iper + 1) streamC accB

/-- ModflowLak.load (mflak.py lines 371-619): skip the comment header,
detect a TABLEINPUT options line, parse datasets 1b, 2 and 3, run the
stress-period loop, and hand the collected data to the ModflowLak
constructor (tab_files is not passed, tab_units only when TABLEINPUT was
seen, and the filenames list defaults to all None entries). -/
def lakLoad (lines : List String) (nper : Nat) (steady : List Bool)
    (u0 : Int) : Except PyErr LakPkg :=
  match skipComments lines with
  | .error e => .error e
  | .ok (line0, rest0) =>
    let tabdata := containsSub "TABLEINPUT".toList (upperStr line0).toList
    let (options, line1, rest1) :=
      if tabdata then
        let (l, r) := pyReadline rest0
        (["TABLEINPUT"], l, r)
      else ([], line0, rest0)
    match lakParseDs1b line1 with
    | .error e => .error e
    | .ok (nlakesI, ipakcb) =>
      let nlakes := nlakesI.toNat
      let (line2, rest2) := pyReadline rest1
      match lakParseDs2 line2 with
      | .error e => .error e
      | .ok (theta, nssitr, sscncr, surfdep) =>
        match lakParseDs3 steady tabdata nlakes rest2 ([], [], []) with
        | .error e => .error e
        | .ok ((stagesToks, srPairs, tus), rest3) =>
          match lakPeriodLoop nlakes steady srPairs nper 0 rest3
              { locs := [], lkncs := [], sills := [], fluxes := [] } with
          | .error e => .error e
          | .ok (acc, _) =>
            let n := 2 + (if tabdata then nlakes else 0)
            lakInit {
              nlakes := nlakes, ipakcb := some ipakcb, theta := theta,
              nssitr := nssitr, sscncr := sscncr, surfdep := surfdep,
              stages := .list stagesToks,
              stageRange := some (.list (srPairs.map (fun pr => [pr.1, pr.2]))),
              tabFiles := none,
              tabUnits := if tabdata then some tus else none,
              lakarr := some acc.locs, bdlknc := some acc.lkncs,
              sillData := some acc.sills, fluxData := some acc.fluxes,
              options := options,
              filenames := some (List.replicate n none),
              steady := steady, nextUnit := u0 }

deriving instance DecidableEq for Except

/-! ## Claim theorems -/

/-- The steady-state flags of the two-period model used for the round-trip
counterexample. -/
def c1Steady : List Bool := [false, false]

/-- A valid Lake package: lake arrays and flux data explicit in period 0,
nothing for period 1, which therefore carries forward. -/
def c1Pkg : LakPkg :=
  { nlakes := 1
    ipakcb := 0
    theta := 1
    nssitr := 0
    sscncr := 0
    surfdep := 0
    options := []
    tabdata := false
    iunitTab := []
    stages := ["10.0"]
    stageRange := []
    lakarr := [(0, 7)]
    bdlknc := [(0, 8)]
    sillData := []
    fluxData := [(0, [[11, 12, 13, 14]])]
    registered := [] }

/-- C1: the write/load round trip is not format-stable for the Lake flux
data.  For the period with no flux entry, write_file emits the count line
with itmp2 = 0 and no dataset 9 lines (mflak.py lines 319-326 and 352),
but load treats any itmp1 greater than or equal to zero - including 0 - as
an instruction to read nlakes dataset 9 lines (mflak.py line 554), so
loading the file just written runs past end of file and aborts with
IndexError instead of reproducing the Store. -/
theorem lak_flux_carry_roundtrip_aborts :
    lakLoad (lakWriteFile c1Pkg c1Steady 2) 2 c1Steady 1000 =
      .error .indexError := by rfl

/-- The GHB file whose only period count line carries the carry-forward
sentinel. -/
def c2File : List String := ["# ghb", "5 0", "-1"]

/-- C2 counterexample: the claim says a period whose count line reads the
negative sentinel is left absent from the Store; on this file the loader
instead stores the key 0 with the integer value -1 (mfghb.py line 236), so
the lookup is not none. -/
theorem ghb_load_negative_count_not_absent :
    (ghbLoad c2File 1).toOption.bind (fun p => spdLookup p.spd 0) =
      some (.sentinel (-1)) := by rfl

/-- C2 amended: on load, a period whose count line reads 0 or -1 is stored
in the stress-period dict under its period key with that integer as its
value - a Clear marker for 0 and a carry-forward marker for -1 - rather
than being left absent, and the loop then moves to the next period. -/
theorem ghb_load_count_sentinels_stored (naux rem iper : Nat) (line : String)
    (rest : List String) (acc : List (Nat × MfEntry)) (tok : String)
    (ts : List String) (i : Int) (hsplit : pySplit line = tok :: ts)
    (htok : pyInt? tok = some i) (hi : i = 0 ∨ i = -1) :
    ghbPeriodLoop naux (rem + 1) iper (line :: rest) acc =
      ghbPeriodLoop naux rem (iper + 1) rest (acc ++ [(iper, .sentinel i)]) := by
  rcases hi with h | h <;> subst h <;> simp [ghbPeriodLoop, hsplit, htok]

/-- C2 amended witness at the concrete sentinel line -1. -/
theorem ghb_load_count_sentinels_stored_witness :
    ghbPeriodLoop 0 1 0 ["-1"] [] = ghbPeriodLoop 0 0 1 [] [(0, .sentinel (-1))] :=
  ghb_load_count_sentinels_stored 0 0 0 "-1" [] [] "-1" [] (-1)
    (by rfl) (by rfl) (Or.inr rfl)

/-- A GHB file for two stress periods truncated after the first period
block. -/
def c3File : List String := ["# ghb", "5 0", "1", "1 2 3 4.0 5.0"]

/-- The partially populated store the truncated file loads into. -/
def c3Spd : List (Nat × MfEntry) := [(0, .records [["1", "2", "3", "4.0", "5.0"]])]

/-- C3 counterexample: a file truncated before the count line of period 1
of 2 loads successfully into a Store populated only with period 0, because
the period loop breaks on end of file (mfghb.py lines 231-232); the claim
says such a file must not load into a partial Store. -/
theorem ghb_load_truncated_file_partial_store :
    ghbLoad c3File 2 =
      .ok { ipakcb := 0, options := [], auxNames := [], spd := c3Spd } ∧
    spdLookup c3Spd 1 = none := ⟨rfl, rfl⟩

/-- C3 amended: failures raised while parsing abort the whole load with no
partial Store (errors propagate through every branch of the loader), but
end of file reached where a period count line is expected is not a
failure: the loop breaks and load returns the Store holding only the
periods read so far. -/
theorem ghb_period_loop_eof_returns_acc (naux rem iper : Nat)
    (acc : List (Nat × MfEntry)) :
    ghbPeriodLoop naux rem iper [] acc = .ok acc := by
  cases rem <;> rfl

/-- A GHB file whose header line has a non-numeric token in the count
position (the mxactb field). -/
def c4File : List String := ["# ghb", "ABC 0", "0"]

/-- C4 counterexample: the claim says a non-numeric token where a count is
expected makes load abort; but the GHB loader never parses the header
count field t[0] at all (mfghb.py lines 203-209 only read t[1] inside a
silent try/except), so this file loads successfully. -/
theorem ghb_load_nonnumeric_header_count_accepted :
    ghbLoad c4File 1 =
      .ok { ipakcb := 0, options := [], auxNames := [],
            spd := [(0, .sentinel 0)] } := by rfl

/-- C4 amended: the count fields that the loaders do parse abort load with
ValueError on a non-numeric token - the per-period count line of the GHB
loader (mfghb.py line 234) and the nlakes field of the LAK header (mflak.py
line 436) - while the GHB header count field is never read and the ipakcb
fields default silently. -/
theorem load_nonnumeric_parsed_count_aborts :
    (∀ (naux rem iper : Nat) (line : String) (rest : List String)
        (acc : List (Nat × MfEntry)) (tok : String) (ts : List String),
      pySplit line = tok :: ts → pyInt? tok = none →
      ghbPeriodLoop naux (rem + 1) iper (line :: rest) acc = .error .valueError) ∧
    (∀ (line tok : String) (ts : List String),
      pySplit line = tok :: ts → pyInt? tok = none →
      lakParseDs1b line = .error .valueError) := by
  constructor
  · intro naux rem iper line rest acc tok ts hsplit htok
    simp [ghbPeriodLoop, hsplit, htok]
  · intro line tok ts hsplit htok
    simp [lakParseDs1b, tokAtInt, hsplit, htok]

/-- C4 amended witness: a non-numeric GHB period count and a non-numeric
LAK nlakes field both abort. -/
theorem load_nonnumeric_parsed_count_aborts_witness :
    ghbPeriodLoop 0 1 0 ["XYZ 0"] [] = .error .valueError ∧
    lakParseDs1b "NL 0" = .error .valueError :=
  ⟨load_nonnumeric_parsed_count_aborts.1 0 0 0 "XYZ 0" [] [] "XYZ" ["0"]
      (by rfl) (by rfl),
   load_nonnumeric_parsed_count_aborts.2 "NL 0" "NL" ["0"] (by rfl) (by rfl)⟩

/-- C5: inside a period block, the first record line containing an
open/close external-file token (case-insensitive) makes the record reader
raise NotImplementedError (mfghb.py lines 241-242), for any number of
well-formed record lines before it and any content after it. -/
theorem ghb_openclose_raises_unsupported (naux n : Nat) (good : List String)
    (l : String) (rest : List String) (acc : List Rec)
    (hgood : ∀ g ∈ good, ∃ r, parseGhbRecordLine naux g = .ok r)
    (hn : good.length < n)
    (hl : containsSub "open/close".toList (lowerStr l).toList = true) :
    ghbReadRecords naux (good ++ l :: rest) n acc =
      .error .notImplementedError := by
  induction good generalizing n acc with
  | nil =>
    obtain ⟨m, rfl⟩ : ∃ m, n = m + 1 := ⟨n - 1, by omega⟩
    have hp : parseGhbRecordLine naux l = .error .notImplementedError := by
      unfold parseGhbRecordLine
      rw [if_pos hl]
    simp only [List.nil_append, ghbReadRecords, pyReadline, hp]
  | cons g gs ih =>
    obtain ⟨m, rfl⟩ : ∃ m, n = m + 1 := ⟨n - 1, by omega⟩
    obtain ⟨r, hr⟩ := hgood g (by simp)
    simp only [List.cons_append, ghbReadRecords, pyReadline, hr]
    exact ih m (acc ++ [r]) (fun x hx => hgood x (List.mem_cons_of_mem g hx))
      (by simpa using hn)

/-- C5 witness: one good record line followed by an OPEN/CLOSE line in a
block announcing two records. -/
theorem ghb_openclose_raises_unsupported_witness :
    ghbReadRecords 0 ["1 2 3 4.0 5.0", "OPEN/CLOSE ext.dat"] 2 [] =
      .error .notImplementedError :=
  ghb_openclose_raises_unsupported 0 2 ["1 2 3 4.0 5.0"] "OPEN/CLOSE ext.dat"
    [] []
    (fun g hg => by
      simp only [List.mem_singleton] at hg
      subst hg
      exact ⟨["1", "2", "3", "4.0", "5.0"], rfl⟩)
    (by decide) (by rfl)

/-- A bind whose continuation always errors makes the whole chain error. -/
theorem bind_exists_err {α β : Type} (x : Except PyErr α) (f : α → Except PyErr β)
    (h : ∀ v, ∃ e, f v = .error e) : ∃ e, x.bind f = .error e := by
  cases x with
  | error e => exact ⟨e, rfl⟩
  | ok v => exact h v

/-- A stress-period store with one explicit record in period 0. -/
def c6Data : List (Nat × MfEntry) := [(0, .records [["1", "2", "3", "4.0", "5.0"]])]

/-- C6 counterexample: the claim says add_record fails with IndexError for
an index beyond the current length; ModflowGhb.add_record catches every
exception from the store and re-raises a generic Exception with a wrapper
message (mfghb.py lines 131-134), so the caller sees an Exception, not an
IndexError. -/
theorem ghb_add_record_generic_not_index :
    ghbAddRecord c6Data 0 2 ["1", "2", "3", "9.0", "9.0"] =
      .error (.exception "mfghb error adding record to list: list index out of range") ∧
    ghbAddRecord c6Data 0 2 ["1", "2", "3", "9.0", "9.0"] ≠ .error .indexError :=
  ⟨rfl, by decide⟩

/-- C6 amended: for an index strictly beyond the length of the record set
being mutated (the Explicit entry if present, else a copy of the resolved
effective set), add_record fails - but with a generic Exception wrapping
the IndexError text, because ModflowGhb.add_record re-raises everything as
Exception; index equal to the length grows the set and a missing Explicit
entry is first created from the effective set, per the store model. -/
theorem ghb_add_record_index_beyond_length_fails (data : List (Nat × MfEntry))
    (kper index : Nat) (values : Rec)
    (h : (ghbCurrentSet data kper).length < index) :
    ghbAddRecord data kper index values =
      .error (.exception "mfghb error adding record to list: list index out of range") := by
  simp only [ghbAddRecord, mflAddRecord]
  rw [if_pos h]
  rfl

/-- C6 amended witness: slot 2 of a one-record effective set. -/
theorem ghb_add_record_index_beyond_length_fails_witness :
    ghbAddRecord c6Data 0 2 ["9", "9", "9", "9.0", "9.0"] =
      .error (.exception "mfghb error adding record to list: list index out of range") :=
  ghb_add_record_index_beyond_length_fails c6Data 0 2 ["9", "9", "9", "9.0", "9.0"]
    (by decide)

/-- C7: the Lake constructor rejects per-lake parameters that do not match
the lake count: a scalar stages argument (whose numpy expression produces
a 0-dimensional array, so the shape check itself raises IndexError), a
list stages argument of the wrong length, and - when the first period is
steady state - a stage_range whose shape is not (nlakes, 2). -/
theorem lak_ctor_rejects_bad_shapes (a : LakInitArgs)
    (h : (∃ q, a.stages = .scalar q) ∨
         (∃ toks, a.stages = .list toks ∧ toks.length ≠ a.nlakes) ∨
         (a.steady.headD false = true ∧
           ∃ rows, a.stageRange = some (.list rows) ∧
             npShape2Ok rows a.nlakes = false)) :
    ∃ e, lakInit a = .error e := by
  simp only [lakInit]
  rcases h with ⟨q, hq⟩ | ⟨toks, hts, hlen⟩ | ⟨hst, rows, hsr, hshape⟩
  · apply bind_exists_err
    intro ru
    rw [hq]
    exact ⟨_, rfl⟩
  · apply bind_exists_err
    intro ru
    rw [hts]
    simp only [stagesSection]
    rw [if_pos hlen]
    exact ⟨_, rfl⟩
  · apply bind_exists_err
    intro ru
    apply bind_exists_err
    intro stagesToks
    rw [hsr, hst]
    simp only [stageRangeSection, hshape]
    exact ⟨_, rfl⟩

/-- Constructor arguments with two lakes but a single stage value. -/
def c7Args : LakInitArgs :=
  { nlakes := 2
    ipakcb := none
    theta := -1
    nssitr := 0
    sscncr := 0
    surfdep := 0
    stages := .list ["1.0"]
    stageRange := none
    tabFiles := none
    tabUnits := none
    lakarr := some [(0, 1)]
    bdlknc := some [(0, 2)]
    sillData := none
    fluxData := none
    options := []
    filenames := none
    steady := [false]
    nextUnit := 30 }

/-- C7 witness: one stage for two lakes is rejected. -/
theorem lak_ctor_rejects_bad_shapes_witness : ∃ e, lakInit c7Args = .error e :=
  lak_ctor_rejects_bad_shapes c7Args (Or.inr (Or.inl ⟨["1.0"], rfl, by decide⟩))

/-- A GHB header carrying both a NOPRINT token and an AUX pair. -/
def c8File : List String := ["# ghb", "10 0 NOPRINT AUX temp", "0"]

/-- C8: on this header the loader records the AUX option and its auxiliary
name as claimed, but drops NOPRINT from the options: the comparison
toption.lower() is the noprint literal (mfghb.py line 217) is a CPython
identity test that is always false for the freshly lowercased token, so
the NOPRINT branch never fires. -/
theorem ghb_load_noprint_dropped_aux_kept :
    ghbLoad c8File 1 =
      .ok { ipakcb := 0, options := ["AUX temp"], auxNames := ["temp"],
            spd := [(0, .sentinel 0)] } := by rfl

/-- A well-formed one-period GHB file. -/
def c9File : List String := ["# ghb", "5 0", "0"]

/-- C9 counterexample: a successful return from load is an exit path on
which the stream the loader opened has not been released - the loader
contains no close call (mfghb.py lines 188-250). -/
theorem ghb_load_returns_with_handle_open :
    (ghbLoadRun c9File 1).1 =
      .ok { ipakcb := 0, options := [], auxNames := [],
            spd := [(0, .sentinel 0)] } ∧
    (ghbLoadRun c9File 1).2 = false := ⟨rfl, rfl⟩

/-- C9 amended: write_file closes its stream only as the final statement
of its success path (there is no try/finally, so an error raised earlier
would skip it), and load never closes the stream it opened, on success or
error. -/
theorem ghb_stream_release_paths :
    (∀ (lines : List String) (nper : Nat), (ghbLoadRun lines nper).2 = false) ∧
    (∀ (pkg : GhbPkg) (nper : Nat), (ghbWriteRun pkg nper).2 = true) :=
  ⟨fun _ _ => rfl, fun _ _ => rfl⟩

/-- Every tabfile entry present makes the non-None check pass and collect
the names in order. -/
theorem checkNoneLoop_all_some (fs : List (Option String))
    (h : ∀ o ∈ fs, o.isSome = true) :
    checkNoneLoop fs = .ok (fs.map (fun o => o.getD "")) := by
  induction fs with
  | nil => rfl
  | cons o os ih =>
    cases o with
    | none => simpa using h none (by simp)
    | some s =>
      simp only [checkNoneLoop, ih (fun x hx => h x (List.mem_cons_of_mem _ hx))]
      simp

/-- Lake constructor arguments with TABLEINPUT active, a caller-supplied
tabfile list, and otherwise valid parameters. -/
def c10Args (fs : List (Option String)) (nlakes : Nat) : LakInitArgs :=
  { nlakes := nlakes
    ipakcb := none
    theta := -1
    nssitr := 0
    sscncr := 0
    surfdep := 0
    stages := .list (List.replicate nlakes "1.0")
    stageRange := none
    tabFiles := some fs
    tabUnits := none
    lakarr := some [(0, 1)]
    bdlknc := some [(0, 2)]
    sillData := none
    fluxData := none
    options := ["TABLEINPUT"]
    filenames := none
    steady := [false]
    nextUnit := 1000 }

/-- C10: with TABLEINPUT active and a tab_files list shorter than nlakes
whose entries are all non-None, construction succeeds - the count-mismatch
check of mflak.py lines 114-117 only assigns its message - and exactly the
supplied files are registered, paired with the model-assigned units. -/
theorem lak_short_tabfiles_construct_ok (fs : List (Option String))
    (nlakes : Nat) (hshort : fs.length < nlakes)
    (hsome : ∀ o ∈ fs, o.isSome = true) :
    ∃ st, lakInit (c10Args fs nlakes) = .ok st ∧
      st.registered =
        List.zip ((List.range fs.length).map (fun i => (1000 : Int) + i))
          (fs.map (fun o => o.getD "")) := by
  have htab : lakDetectTab ["TABLEINPUT"] = true := rfl
  have hchk := checkNoneLoop_all_some fs hsome
  simp only [lakInit, c10Args, lakTabSection, htab, if_true, Except.bind, hchk,
    stagesSection, List.length_replicate, stageRangeSection, lakarrCheck,
    fluxEntriesCheck]
  simp

/-- C10 witness: one tabfile for two lakes. -/
theorem lak_short_tabfiles_construct_ok_witness :
    ∃ st, lakInit (c10Args [some "lake1.tab"] 2) = .ok st ∧
      st.registered =
        List.zip ((List.range 1).map (fun i => (1000 : Int) + i))
          ([some "lake1.tab"].map (fun o => o.getD "")) :=
  lak_short_tabfiles_construct_ok [some "lake1.tab"] 2 (by decide)
    (by intro o ho; simp only [List.mem_singleton] at ho; subst ho; rfl)
